import Mathlib

/-!
Verification of the FACE_DETECTION_APP repository (`src/app.py`).

The file shallowly embeds the data model of the app and operations:
  * the SQLite `users` table created by `init_db` (schema of `src/app.py`
    lines 30-39), modelled as a `Table` of `Row`s with an AUTOINCREMENT
    counter;
  * `save_user_result` (lines 43-52), the INSERT together with the
    NOT NULL and CHECK constraints;
  * the frame-processing loop `generate_frames` (lines 60-90): DeepFace
    analysis guarded by a bare `except`, `cv2.putText` annotation,
    `cv2.imwrite` to a wall-clock-second-derived path, the database insert,
    and the yielded multipart JPEG chunk;
  * the query of the `/users` route: `SELECT * FROM users ORDER BY timestamp DESC`
    (lines 107-110).

External collaborators (OpenCV, DeepFace, SQLite, the filesystem) are
modelled at the boundary the app observes: analysis outcomes are a value or
an exception, `cv2.putText` mutates the pixel buffer it is handed,
`cv2.imwrite` overwrites whatever was at the path, and the SQLite CHECK
constraint passes whenever the checked expression is TRUE or NULL.
-/

namespace FaceApp

/-! ## Images and OpenCV boundary -/

/-- One rasterized text drawing on an image buffer: the arguments the app
passes to `cv2.putText` (text, origin, font scale, BGR color, thickness). -/
structure TextDrawing where
  text : String
  pos : Nat × Nat
  fontScale : Nat
  color : Nat × Nat × Nat
  thickness : Nat
deriving DecidableEq

/-- A camera frame / image buffer.  `pixels` stands for the raw pixel data
produced by the camera; `drawings` records the text that has been rasterized
into the buffer (a fresh camera frame has none). -/
structure Image where
  pixels : List Nat
  drawings : List TextDrawing
deriving DecidableEq

/-- Model of `cv2.putText(img, text, pos, font, fontScale, color, thickness)`:
OpenCV rasterizes the text into the very buffer it is handed (in place, no
copy).  The value of the buffer after the call is the input image with the
drawing added. -/
def putText (img : Image) (text : String) (pos : Nat × Nat) (fontScale : Nat)
    (color : Nat × Nat × Nat) (thickness : Nat) : Image :=
  { img with drawings := img.drawings ++ [⟨text, pos, fontScale, color, thickness⟩] }

/-- Model of `cv2.imencode` on a frame followed by `tobytes`: an opaque JPEG
encoding of the image. -/
structure Jpeg where
  image : Image
deriving DecidableEq

/-- One chunk yielded by `generate_frames`: the multipart boundary and
headers wrapped around the JPEG bytes of the frame. -/
structure Chunk where
  jpeg : Jpeg
deriving DecidableEq

/-! ## DeepFace boundary -/

/-- One entry of the result list returned by `DeepFace.analyze`: the app
reads only its `dominant_emotion` field. -/
structure FaceResult where
  dominant_emotion : String
deriving DecidableEq

/-- Outcome of the call `DeepFace.analyze` with the emotion action and
`enforce_detection=False`: either a list of per-face results, or an
exception (model error, malformed frame, ...).  The bare `except:` in
`generate_frames` catches every exception uniformly. -/
inductive AnalyzeOutcome where
  | ok (results : List FaceResult)
  | exn
deriving DecidableEq

/-- The `try`/`except` block of `generate_frames` (src/app.py lines 67-71):
`emotion = result[0][dominant_emotion]`, and on any exception — including
the `IndexError` raised by `result[0]` when the result list is empty —
`emotion = "No face detected"`. -/
def detectedEmotion : AnalyzeOutcome → String
  | .exn => "No face detected"
  | .ok [] => "No face detected"
  | .ok (r :: _) => r.dominant_emotion

/-! ## Wall-clock time and artifact paths -/

/-- A wall-clock instant at second granularity, as consumed by
the strftime call of line 79, at format `%Y%m%d_%H%M%S`. -/
structure DateTime where
  year : Nat
  month : Nat
  day : Nat
  hour : Nat
  minute : Nat
  second : Nat
deriving DecidableEq

/-- Zero-pad a numeral to two digits (strftime `%m`, `%d`, `%H`, `%M`, `%S`). -/
def pad2 (n : Nat) : String :=
  if n < 10 then "0" ++ toString n else toString n

/-- Zero-pad a numeral to four digits (strftime `%Y`). -/
def pad4 (n : Nat) : String :=
  if n < 10 then "000" ++ toString n
  else if n < 100 then "00" ++ toString n
  else if n < 1000 then "0" ++ toString n
  else toString n

/-- The strftime call of line 79: format `%Y%m%d_%H%M%S` on `datetime.now()`. -/
def strftimeYmdHMS (t : DateTime) : String :=
  pad4 t.year ++ pad2 t.month ++ pad2 t.day ++ "_" ++
    pad2 t.hour ++ pad2 t.minute ++ pad2 t.second

/-- `image_filename`, src/app.py line 79: the literal `captured/`, then the
strftime rendering of the current instant, then the literal `.jpg`. -/
def imageFilename (t : DateTime) : String :=
  "captured/" ++ strftimeYmdHMS t ++ ".jpg"

/-! ## Filesystem boundary -/

/-- The durable artifact store: paths mapped to image bytes.  Writes are
prepended; a read returns the most recent write to the path. -/
abbrev FileSystem := List (String × Image)

/-- Model of `cv2.imwrite(path, frame)`: store the image at the path,
shadowing (overwriting) any previous content there. -/
def fsWrite (fs : FileSystem) (path : String) (img : Image) : FileSystem :=
  (path, img) :: fs

/-- Read back the artifact at a path: the most recent write wins. -/
def fsRead (fs : FileSystem) (path : String) : Option Image :=
  (fs.find? (fun e => e.1 = path)).map Prod.snd

/-! ## SQLite `users` table -/

/-- One row of the `users` table (schema in `init_db`, src/app.py
lines 30-39).  `name` is declared NOT NULL but SQL columns are nullable at
the interface, so nullable columns are `Option`; `timestamp` is the
second-granularity instant SQLite assigns via `DEFAULT CURRENT_TIMESTAMP`,
modelled as seconds since an epoch. -/
structure Row where
  id : Nat
  name : Option String
  usage_mode : Option String
  image_path : Option String
  detected_emotion : Option String
  timestamp : Nat
deriving DecidableEq

/-- The `users` table: its rows in storage (insertion) order, plus the
AUTOINCREMENT sequence value (`1 +` the largest `id` ever assigned). -/
structure Table where
  rows : List Row
  nextId : Nat
deriving DecidableEq

/-- The state of the database file: `none` while the `users` table does not
yet exist. -/
abbrev Db := Option Table

/-- Errors an INSERT can raise through the Python `sqlite3` module: a NOT NULL
or CHECK constraint violation surfaces as `sqlite3.IntegrityError`. -/
inductive DbError where
  | integrityError
deriving DecidableEq

/-- `init_db` (src/app.py lines 26-41): `CREATE TABLE IF NOT EXISTS users
(...)` — creates the empty table when absent, and is a no-op when the table
already exists. -/
def init_db (db : Db) : Db :=
  match db with
  | some t => some t
  | none => some { rows := [], nextId := 1 }

/-- The table `init_db` creates on a fresh database file. -/
def freshTable : Table := { rows := [], nextId := 1 }

/-- The schema constraint `CHECK(usage_mode IN (online, offline))`.
Per SQLite semantics a CHECK constraint fails only when the expression
evaluates to FALSE; `NULL IN (online, offline)` is NULL, which passes. -/
def checkUsageMode : Option String → Bool
  | none => true
  | some v => v = "online" || v = "offline"

/-- The row an INSERT appends: `id` from the AUTOINCREMENT sequence,
`timestamp` assigned by the store (`DEFAULT CURRENT_TIMESTAMP`). -/
def rowInsert (t : Table) (now : Nat) (name usage_mode image_path emotion : Option String) :
    Table :=
  { rows := t.rows ++
      [{ id := t.nextId, name := name, usage_mode := usage_mode,
         image_path := image_path, detected_emotion := emotion, timestamp := now }],
    nextId := t.nextId + 1 }

/-- `save_user_result(name, usage_mode, image_path, emotion)` (src/app.py
lines 43-52): `INSERT INTO users (name, usage_mode, image_path,
detected_emotion) VALUES (?, ?, ?, ?)`.  The insert fails with
`sqlite3.IntegrityError` when `name` is NULL (NOT NULL constraint) or when
`usage_mode` fails its CHECK constraint; otherwise it appends one row. -/
def save_user_result (t : Table) (now : Nat)
    (name usage_mode image_path emotion : Option String) : Except DbError Table :=
  if name = none then .error .integrityError
  else if checkUsageMode usage_mode then
    .ok (rowInsert t now name usage_mode image_path emotion)
  else .error .integrityError

/-! ## The frame pipeline `generate_frames` -/

/-- The per-iteration environment: the raw frame `cap.read()` produced, the
outcome of the `DeepFace.analyze` call on it, the wall-clock instant
`datetime.now()` reads when naming the artifact, and the instant the SQLite
`CURRENT_TIMESTAMP` reads at the insert. -/
structure IterInput where
  frame : Image
  analysis : AnalyzeOutcome
  now : DateTime
  dbTime : Nat
deriving DecidableEq

/-- The mutable state one iteration touches: the database table and the
artifact store. -/
structure PipelineState where
  db : Table
  fs : FileSystem
deriving DecidableEq

/-- One iteration of the `while True` body of `generate_frames` (src/app.py
lines 66-90) after a successful `cap.read()`:
  1. `emotion` from the guarded `DeepFace.analyze` call;
  2. `cv2.putText` of the text `Mood: ` plus the emotion, at (50, 50),
     FONT_HERSHEY_SIMPLEX, scale 1, color (0,255,0), thickness 2 — in
     place on `frame`;
  3. `cv2.imwrite(image_filename, frame)` with the second-granularity name;
  4. `save_user_result("Anonymous", "online", image_filename, emotion)` —
     a raised database error propagates, nothing catches it here;
  5. `cv2.imencode` of the frame as JPEG and the yielded multipart chunk. -/
def processIter (st : PipelineState) (inp : IterInput) :
    Except DbError (PipelineState × Chunk) :=
  let emotion := detectedEmotion inp.analysis
  let frame := putText inp.frame ("Mood: " ++ emotion) (50, 50) 1 (0, 255, 0) 2
  let path := imageFilename inp.now
  let fs1 := fsWrite st.fs path frame
  match save_user_result st.db inp.dbTime (some "Anonymous") (some "online")
      (some path) (some emotion) with
  | .error e => .error e
  | .ok db1 => .ok ({ db := db1, fs := fs1 }, { jpeg := { image := frame } })

/-- The value the variable `frame` holds after the `cv2.putText` call of
step 2 — also the content of the buffer the raw frame occupied, since the
call draws in place. -/
def annotatedFrame (raw : Image) (emotion : String) : Image :=
  putText raw ("Mood: " ++ emotion) (50, 50) 1 (0, 255, 0) 2

/-- `generate_frames` (src/app.py lines 60-90) over a capture source that
yields the given frames in order and then reports exhaustion
(`cap.read()` returns `success = False`, breaking the loop).  Returns the
final state and the list of yielded chunks; a database error raised inside
an iteration propagates out uncaught, aborting the generator. -/
def generate_frames (st : PipelineState) :
    List IterInput → Except DbError (PipelineState × List Chunk)
  | [] => .ok (st, [])
  | inp :: rest =>
    match processIter st inp with
    | .error e => .error e
    | .ok (st1, c) =>
      match generate_frames st1 rest with
      | .error e => .error e
      | .ok (st2, cs) => .ok (st2, c :: cs)

/-- The state of the pipeline at process start: the table `init_db` just ensured
exists (fresh database) and an empty artifact store. -/
def initialState : PipelineState := { db := freshTable, fs := [] }

/-! ## The `/users` listing -/

/-- Insert a row into a timestamp-descending list: the row goes in front of
the first strictly older row, after every row at least as recent. -/
def insertDesc (r : Row) : List Row → List Row
  | [] => [r]
  | x :: xs => if x.timestamp ≤ r.timestamp then r :: x :: xs else x :: insertDesc r xs

/-- Sort rows by `timestamp` descending.  Models `ORDER BY timestamp DESC`:
the query constrains only the timestamps, and for rows with equal
timestamps SQLite returns them in table-scan (storage) order, which this
stable sort preserves. -/
def sortDesc : List Row → List Row
  | [] => []
  | x :: xs => insertDesc x (sortDesc xs)

/-- The query of the `/users` route (src/app.py lines 107-110):
`SELECT * FROM users ORDER BY timestamp DESC` over the stored rows. -/
def usersQuery (t : Table) : List Row :=
  sortDesc t.rows

/-! ## Derived record shapes used by the pipeline theorems -/

/-- The row one pipeline iteration inserts, given the AUTOINCREMENT value it
runs at: fixed name `"Anonymous"`, fixed mode `"online"`, the
second-granularity artifact path, and the detected (or sentinel) emotion. -/
def recordOf (nextId : Nat) (inp : IterInput) : Row :=
  { id := nextId, name := some "Anonymous", usage_mode := some "online",
    image_path := some (imageFilename inp.now),
    detected_emotion := some (detectedEmotion inp.analysis),
    timestamp := inp.dbTime }

/-- The rows a run of the pipeline appends, starting from a given
AUTOINCREMENT value: one per frame, in frame order, with consecutive ids. -/
def recordsFrom (nextId : Nat) : List IterInput → List Row
  | [] => []
  | inp :: rest => recordOf nextId inp :: recordsFrom (nextId + 1) rest

/-- The chunks a run of the pipeline yields: one per frame, in frame order,
each carrying the JPEG of the annotated image of that frame. -/
def chunksFor : List IterInput → List Chunk
  | [] => []
  | inp :: rest =>
    { jpeg := { image := annotatedFrame inp.frame (detectedEmotion inp.analysis) } } ::
      chunksFor rest

/-! ## Concrete sample values for instantiations -/

/-- A concrete raw camera frame. -/
def sampleFrame : Image := { pixels := [1, 2, 3], drawings := [] }

/-- A concrete iteration whose analysis succeeds with one face. -/
def sampleOkInput : IterInput :=
  { frame := sampleFrame,
    analysis := .ok [{ dominant_emotion := "happy" }],
    now := { year := 2026, month := 1, day := 1, hour := 0, minute := 0, second := 0 },
    dbTime := 11 }

/-- A concrete iteration whose analysis raises an exception. -/
def sampleExnInput : IterInput :=
  { frame := sampleFrame, analysis := .exn,
    now := { year := 2026, month := 1, day := 1, hour := 0, minute := 0, second := 1 },
    dbTime := 12 }

/-- A concrete iteration whose analysis reports two faces. -/
def sampleTwoFaceInput : IterInput :=
  { frame := sampleFrame,
    analysis := .ok [{ dominant_emotion := "happy" }, { dominant_emotion := "sad" }],
    now := { year := 2026, month := 1, day := 1, hour := 0, minute := 0, second := 0 },
    dbTime := 11 }

/-- A concrete stored table whose two rows carry distinct timestamps. -/
def sampleTable : Table :=
  { rows := [
      { id := 1, name := some "Anonymous", usage_mode := some "online",
        image_path := some "captured/20260101_000000.jpg",
        detected_emotion := some "happy", timestamp := 10 },
      { id := 2, name := some "Anonymous", usage_mode := some "online",
        image_path := some "captured/20260101_000001.jpg",
        detected_emotion := some "sad", timestamp := 20 }],
    nextId := 3 }

/-! ## Helper lemmas -/

/-- An INSERT with the fixed pipeline arguments (non-null name, mode
`online`) always satisfies the constraints and appends one row. -/
theorem save_user_result_online (t : Table) (now : Nat) (nm : String) (p e : Option String) :
    save_user_result t now (some nm) (some "online") p e =
      .ok (rowInsert t now (some nm) (some "online") p e) := by
  simp [save_user_result, checkUsageMode]

/-- Unfolding one pipeline iteration: the insert succeeds, the annotated
frame is written at the second-granularity path, and the chunk carries the
JPEG of the annotated frame. -/
theorem processIter_ok (st : PipelineState) (inp : IterInput) :
    processIter st inp =
      .ok ({ db := { rows := st.db.rows ++ [recordOf st.db.nextId inp],
                     nextId := st.db.nextId + 1 },
             fs := fsWrite st.fs (imageFilename inp.now)
                     (annotatedFrame inp.frame (detectedEmotion inp.analysis)) },
           { jpeg := { image := annotatedFrame inp.frame (detectedEmotion inp.analysis) } }) := by
  simp [processIter, save_user_result_online, rowInsert, recordOf, annotatedFrame]

/-- Reading a path immediately after writing it returns the written image. -/
theorem fsRead_fsWrite_same (fs : FileSystem) (path : String) (img : Image) :
    fsRead (fsWrite fs path img) path = some img := by
  simp [fsRead, fsWrite]

/-- A run appends one record per input frame. -/
theorem recordsFrom_length (l : List IterInput) : ∀ n, (recordsFrom n l).length = l.length := by
  induction l with
  | nil => intro n; rfl
  | cons a l ih => intro n; simp [recordsFrom, ih]

/-- Every record of a run carries an id at least the starting sequence value. -/
theorem recordsFrom_id_lb (l : List IterInput) :
    ∀ n r, r ∈ recordsFrom n l → n ≤ r.id := by
  induction l with
  | nil => intro n r h; simp [recordsFrom] at h
  | cons a l ih =>
    intro n r h
    rcases List.mem_cons.mp h with h | h
    · subst h; exact Nat.le_refl _
    · exact Nat.le_of_succ_le (ih (n + 1) r h)

/-- The ids of the records of a run are strictly increasing in append order. -/
theorem recordsFrom_pairwise (l : List IterInput) :
    ∀ n, List.Pairwise (fun a b => a.id < b.id) (recordsFrom n l) := by
  induction l with
  | nil => intro n; exact List.Pairwise.nil
  | cons a l ih =>
    intro n
    refine List.Pairwise.cons (fun r hr => ?_) (ih (n + 1))
    exact Nat.lt_of_lt_of_le (Nat.lt_succ_self n) (recordsFrom_id_lb l (n + 1) r hr)

/-- The i-th record of a run is the record of the i-th frame, at sequence
value start plus i. -/
theorem recordsFrom_get (l : List IterInput) :
    ∀ n i (hi : i < l.length) (hi2 : i < (recordsFrom n l).length),
      (recordsFrom n l).get ⟨i, hi2⟩ = recordOf (n + i) (l.get ⟨i, hi⟩) := by
  induction l with
  | nil => intro n i hi; exact absurd hi (Nat.not_lt_zero i)
  | cons a l ih =>
    intro n i hi hi2
    cases i with
    | zero => rfl
    | succ j =>
      have hj : j < l.length := Nat.lt_of_succ_lt_succ hi
      have hj2 : j < (recordsFrom (n + 1) l).length := by
        rw [recordsFrom_length]; exact hj
      have h := ih (n + 1) j hj hj2
      have hx : n + (j + 1) = (n + 1) + j := by omega
      rw [hx]
      exact h

/-- A run yields one chunk per input frame. -/
theorem chunksFor_length (l : List IterInput) : (chunksFor l).length = l.length := by
  induction l with
  | nil => rfl
  | cons a l ih => simp [chunksFor, ih]

/-- Characterisation of a full run of `generate_frames`: it succeeds, the
final table is the starting rows followed by one record per frame in frame
order, the sequence value advances by the number of frames, and the yielded
chunks are one per frame in frame order. -/
theorem generate_frames_run (inputs : List IterInput) :
    ∀ st : PipelineState,
      ∃ fs2, generate_frames st inputs =
        .ok ({ db := { rows := st.db.rows ++ recordsFrom st.db.nextId inputs,
                       nextId := st.db.nextId + inputs.length },
               fs := fs2 }, chunksFor inputs) := by
  induction inputs with
  | nil =>
    intro st
    exact ⟨st.fs, by simp [generate_frames, recordsFrom, chunksFor]⟩
  | cons inp rest ih =>
    intro st
    obtain ⟨fs2, h⟩ := ih
      { db := { rows := st.db.rows ++ [recordOf st.db.nextId inp],
                nextId := st.db.nextId + 1 },
        fs := fsWrite st.fs (imageFilename inp.now)
                (annotatedFrame inp.frame (detectedEmotion inp.analysis)) }
    refine ⟨fs2, ?_⟩
    simp only [generate_frames, processIter_ok, h]
    simp [recordsFrom, chunksFor, List.append_assoc, Nat.add_comm, Nat.add_assoc,
      Nat.add_left_comm]

/-! ## Lemmas about the timestamp-descending sort -/

/-- Inserting into the sorted listing is a permutation of consing. -/
theorem insertDesc_perm (r : Row) : ∀ l : List Row, List.Perm (insertDesc r l) (r :: l) := by
  intro l
  induction l with
  | nil => exact List.Perm.refl _
  | cons x xs ih =>
    simp only [insertDesc]
    by_cases h : x.timestamp ≤ r.timestamp
    · rw [if_pos h]
    · rw [if_neg h]
      exact (ih.cons x).trans (List.Perm.swap r x xs)

/-- The sorted listing is a permutation of the stored rows. -/
theorem sortDesc_perm : ∀ l : List Row, List.Perm (sortDesc l) l := by
  intro l
  induction l with
  | nil => exact List.Perm.refl _
  | cons x xs ih => exact (insertDesc_perm x (sortDesc xs)).trans (ih.cons x)

/-- Insertion preserves the timestamp-descending ordering. -/
theorem insertDesc_pairwise (r : Row) : ∀ l : List Row,
    List.Pairwise (fun a b => b.timestamp ≤ a.timestamp) l →
    List.Pairwise (fun a b => b.timestamp ≤ a.timestamp) (insertDesc r l) := by
  intro l
  induction l with
  | nil => intro _; exact List.pairwise_singleton _ r
  | cons x xs ih =>
    intro hp
    have hp2 := List.pairwise_cons.mp hp
    simp only [insertDesc]
    by_cases h : x.timestamp ≤ r.timestamp
    · rw [if_pos h]
      refine List.Pairwise.cons (fun b hb => ?_) hp
      rcases List.mem_cons.mp hb with hb | hb
      · subst hb; exact h
      · exact Nat.le_trans (hp2.1 b hb) h
    · rw [if_neg h]
      refine List.Pairwise.cons (fun b hb => ?_) (ih hp2.2)
      rcases List.mem_cons.mp ((insertDesc_perm r xs).mem_iff.mp hb) with hb2 | hb2
      · subst hb2; exact Nat.le_of_lt (Nat.lt_of_not_le h)
      · exact hp2.1 b hb2

/-- The listing is ordered by timestamp descending (non-increasing). -/
theorem sortDesc_pairwise : ∀ l : List Row,
    List.Pairwise (fun a b => b.timestamp ≤ a.timestamp) (sortDesc l) := by
  intro l
  induction l with
  | nil => exact List.Pairwise.nil
  | cons x xs ih => exact insertDesc_pairwise x (sortDesc xs) ih

/-- A row strictly older than everything in the listing lands at its end. -/
theorem insertDesc_append_of_lt (r : Row) : ∀ l : List Row,
    (∀ b ∈ l, r.timestamp < b.timestamp) → insertDesc r l = l ++ [r] := by
  intro l
  induction l with
  | nil => intro _; rfl
  | cons x xs ih =>
    intro hb
    have hx : ¬ x.timestamp ≤ r.timestamp :=
      Nat.not_le.mpr (hb x (List.mem_cons_self x xs))
    simp only [insertDesc]
    rw [if_neg hx, ih (fun b hb2 => hb b (List.mem_cons_of_mem x hb2))]
    rfl

/-- With strictly increasing timestamps the listing is exactly the reverse
of insertion order. -/
theorem sortDesc_reverse_of_strict : ∀ l : List Row,
    List.Pairwise (fun a b => a.timestamp < b.timestamp) l →
    sortDesc l = l.reverse := by
  intro l
  induction l with
  | nil => intro _; rfl
  | cons x xs ih =>
    intro hp
    have hp2 := List.pairwise_cons.mp hp
    simp only [sortDesc]
    rw [ih hp2.2, insertDesc_append_of_lt x xs.reverse
      (fun b hb => hp2.1 b (List.mem_reverse.mp hb)), List.reverse_cons]

/-! ## Claim theorems -/

/-- Claim C1, counterexample: on a classifier failure the pipeline appends
a record whose `detected_emotion` is the literal `No face detected` of
src/app.py line 71 — with a capital N — not the sentinel spelled
`no face detected` in the claim. -/
theorem sentinel_case_counterexample :
    ((processIter { db := { rows := [], nextId := 1 }, fs := [] }
        { frame := { pixels := [7], drawings := [] }, analysis := .exn,
          now := { year := 2026, month := 1, day := 2, hour := 3, minute := 4, second := 5 },
          dbTime := 100 }).toOption.map
        (fun r => r.1.db.rows.map Row.detected_emotion)) =
      some [some "No face detected"] ∧
    some "No face detected" ≠ some "no face detected" := by
  exact ⟨by decide, by decide⟩

/-- Claim C1, amended: on every classifier failure — an exception from the
analyze call, or an empty result list making the subscript raise — the
iteration returns normally (no exception propagates), appends exactly one
record, and that record carries the sentinel `No face detected` (spelled
with a capital N, as in the code) as its `detected_emotion`. -/
theorem sentinel_on_classifier_failure (st : PipelineState) (inp : IterInput)
    (h : inp.analysis = .exn ∨ inp.analysis = .ok []) :
    processIter st inp =
      .ok ({ db := { rows := st.db.rows ++ [recordOf st.db.nextId inp],
                     nextId := st.db.nextId + 1 },
             fs := fsWrite st.fs (imageFilename inp.now)
                     (annotatedFrame inp.frame "No face detected") },
           { jpeg := { image := annotatedFrame inp.frame "No face detected" } }) ∧
    (recordOf st.db.nextId inp).detected_emotion = some "No face detected" := by
  have he : detectedEmotion inp.analysis = "No face detected" := by
    rcases h with h | h <;> rw [h] <;> rfl
  refine ⟨?_, ?_⟩
  · rw [processIter_ok, he]
  · simp [recordOf, he]

/-- Witness for the amended C1 at a concrete failing frame. -/
theorem sentinel_on_classifier_failure_witness :
    (sampleExnInput.analysis = AnalyzeOutcome.exn ∨
      sampleExnInput.analysis = AnalyzeOutcome.ok []) ∧
    (recordOf 1 sampleExnInput).detected_emotion = some "No face detected" :=
  ⟨Or.inl rfl,
    (sentinel_on_classifier_failure { db := { rows := [], nextId := 1 }, fs := [] }
      sampleExnInput (Or.inl rfl)).2⟩

/-- Claim C2: a run of the pipeline over any frame sequence succeeds and
appends exactly one record per processed frame; the i-th appended record is
built from the i-th frame (records in frame-processing order) and carries
id start + i, so the appended ids are strictly increasing and unique. -/
theorem one_record_per_frame_in_order (inputs : List IterInput) (st : PipelineState) :
    ∃ st2 cs, generate_frames st inputs = .ok (st2, cs) ∧
      st2.db.rows = st.db.rows ++ recordsFrom st.db.nextId inputs ∧
      (recordsFrom st.db.nextId inputs).length = inputs.length ∧
      (∀ i (hi : i < inputs.length) (hi2 : i < (recordsFrom st.db.nextId inputs).length),
        (recordsFrom st.db.nextId inputs).get ⟨i, hi2⟩ =
          recordOf (st.db.nextId + i) (inputs.get ⟨i, hi⟩)) ∧
      List.Pairwise (fun a b => a.id < b.id) (recordsFrom st.db.nextId inputs) := by
  obtain ⟨fs2, h⟩ := generate_frames_run inputs st
  exact ⟨_, _, h, rfl, recordsFrom_length inputs st.db.nextId,
    recordsFrom_get inputs st.db.nextId, recordsFrom_pairwise inputs st.db.nextId⟩

/-- Witness for C2 on a concrete two-frame run. -/
theorem one_record_per_frame_in_order_witness :
    ∃ st2 cs,
      generate_frames initialState [sampleOkInput, sampleExnInput] = .ok (st2, cs) ∧
      st2.db.rows = initialState.db.rows ++
        recordsFrom initialState.db.nextId [sampleOkInput, sampleExnInput] ∧
      (recordsFrom initialState.db.nextId [sampleOkInput, sampleExnInput]).length =
        ([sampleOkInput, sampleExnInput] : List IterInput).length ∧
      (∀ i (hi : i < ([sampleOkInput, sampleExnInput] : List IterInput).length)
          (hi2 : i <
            (recordsFrom initialState.db.nextId [sampleOkInput, sampleExnInput]).length),
        (recordsFrom initialState.db.nextId [sampleOkInput, sampleExnInput]).get ⟨i, hi2⟩ =
          recordOf (initialState.db.nextId + i)
            (([sampleOkInput, sampleExnInput] : List IterInput).get ⟨i, hi⟩)) ∧
      List.Pairwise (fun a b => a.id < b.id)
        (recordsFrom initialState.db.nextId [sampleOkInput, sampleExnInput]) :=
  one_record_per_frame_in_order [sampleOkInput, sampleExnInput] initialState

/-- Claim C3: an `append` whose mode is a non-null value outside
online / offline violates the CHECK constraint: the INSERT fails with
`IntegrityError`, and no table state results from it — the stored record
set is unchanged. -/
theorem invalid_mode_fails_validation (t : Table) (now : Nat) (name : Option String)
    (m : String) (h1 : m ≠ "online") (h2 : m ≠ "offline") (p e : Option String) :
    save_user_result t now name (some m) p e = .error .integrityError ∧
    ∀ t2, save_user_result t now name (some m) p e ≠ .ok t2 := by
  have hc : checkUsageMode (some m) = false := by
    simp [checkUsageMode, h1, h2]
  have key : save_user_result t now name (some m) p e = .error .integrityError := by
    cases name with
    | none => simp [save_user_result]
    | some v => simp [save_user_result, hc]
  exact ⟨key, fun t2 hcon => by rw [key] at hcon; exact Except.noConfusion hcon⟩

/-- Witness for C3 at the concrete invalid mode `hybrid`. -/
theorem invalid_mode_fails_validation_witness :
    (("hybrid" : String) ≠ "online") ∧ (("hybrid" : String) ≠ "offline") ∧
    save_user_result freshTable 0 (some "Anonymous") (some "hybrid") none none =
      .error .integrityError :=
  ⟨by decide, by decide,
    (invalid_mode_fails_validation freshTable 0 (some "Anonymous") "hybrid"
      (by decide) (by decide) none none).1⟩

/-- Claim C4, counterexample: two records inserted within the same
wall-clock second carry equal stored timestamps, and
`ORDER BY timestamp DESC` then returns the earlier-inserted row (id 1)
first, so the listing does not put the most recently inserted record
(id 2) first. -/
theorem users_listing_counterexample :
    (usersQuery { rows := [
        { id := 1, name := some "Anonymous", usage_mode := some "online",
          image_path := some "captured/20260101_000000.jpg",
          detected_emotion := some "happy", timestamp := 50 },
        { id := 2, name := some "Anonymous", usage_mode := some "online",
          image_path := some "captured/20260101_000000.jpg",
          detected_emotion := some "sad", timestamp := 50 }], nextId := 3 }).map Row.id
      = [1, 2] ∧ (1 : Nat) ≠ 2 := by
  exact ⟨by decide, by decide⟩

/-- Claim C4, amended: the `/users` query returns every stored record
exactly once, ordered by timestamp descending (non-increasing); when the
stored timestamps are strictly increasing in insertion order — in
particular whenever they are all distinct — the listing is exactly the
reverse of insertion order, so the most recently inserted record comes
first; on an empty table it returns the empty sequence, not an error. -/
theorem users_listing_descending (t : Table) :
    List.Perm (usersQuery t) t.rows ∧
    List.Pairwise (fun a b => b.timestamp ≤ a.timestamp) (usersQuery t) ∧
    (List.Pairwise (fun a b => a.timestamp < b.timestamp) t.rows →
      usersQuery t = t.rows.reverse) ∧
    usersQuery { rows := [], nextId := t.nextId } = [] :=
  ⟨sortDesc_perm t.rows, sortDesc_pairwise t.rows,
    fun h => sortDesc_reverse_of_strict t.rows h, rfl⟩

/-- Witness for the amended C4 on a concrete two-row table with distinct
timestamps. -/
theorem users_listing_descending_witness :
    List.Pairwise (fun a b => a.timestamp < b.timestamp) sampleTable.rows ∧
    usersQuery sampleTable = sampleTable.rows.reverse :=
  ⟨by decide, (users_listing_descending sampleTable).2.2.1 (by decide)⟩

/-- Claim C5, counterexample: annotating this concrete frame does not
leave it unchanged — `cv2.putText` draws into the buffer it is handed, so
after step 2 the raw frame buffer holds the annotated image, which differs
from the raw frame. -/
theorem annotate_copy_counterexample :
    annotatedFrame { pixels := [0], drawings := [] } "happy" ≠
      { pixels := [0], drawings := [] } := by
  decide

/-- Claim C5, amended: the annotation step is not side-effect-free with
respect to the original frame: the label is rendered into the raw frame
buffer in place (no copy is taken), the annotated image always differs
from the raw frame, and that mutated frame is exactly what the iteration
persists as the artifact and encodes into the streamed chunk. -/
theorem annotate_in_place (st : PipelineState) (inp : IterInput) :
    annotatedFrame inp.frame (detectedEmotion inp.analysis) ≠ inp.frame ∧
    ∃ st2 c, processIter st inp = .ok (st2, c) ∧
      c.jpeg.image = annotatedFrame inp.frame (detectedEmotion inp.analysis) ∧
      fsRead st2.fs (imageFilename inp.now) =
        some (annotatedFrame inp.frame (detectedEmotion inp.analysis)) := by
  constructor
  · intro hcon
    have hlen := congrArg (fun i => i.drawings.length) hcon
    simp [annotatedFrame, putText] at hlen
  · exact ⟨_, _, processIter_ok st inp, rfl,
      fsRead_fsWrite_same st.fs (imageFilename inp.now)
        (annotatedFrame inp.frame (detectedEmotion inp.analysis))⟩

/-- Claim C6: `init_db` is idempotent on an existing table: one more call
(and a second call after it) returns the same table, with the stored rows
— hence the row count — unchanged; no data is dropped or migrated. -/
theorem init_db_idempotent (t : Table) :
    init_db (some t) = some t ∧
    init_db (init_db (some t)) = some t ∧
    (init_db (some t)).map Table.rows = some t.rows :=
  ⟨rfl, rfl, rfl⟩

/-- Claim C7: over a capture source exhausted after the given frames, the
pipeline terminates normally — the run produces a value, not an error —
after yielding exactly one chunk per frame and appending exactly one
record per frame. -/
theorem pipeline_terminates_after_source (inputs : List IterInput) :
    ∃ st2 cs, generate_frames initialState inputs = .ok (st2, cs) ∧
      cs.length = inputs.length ∧
      st2.db.rows.length = inputs.length := by
  obtain ⟨fs2, h⟩ := generate_frames_run inputs initialState
  refine ⟨_, _, h, chunksFor_length inputs, ?_⟩
  show (initialState.db.rows ++ recordsFrom initialState.db.nextId inputs).length =
    inputs.length
  simp [initialState, freshTable, recordsFrom_length]

/-- Claim C8: two frames processed during the same wall-clock second (all
six second-granularity components of the clock equal) derive equal
artifact paths, and writing the second artifact silently overwrites the
first: reading the shared path afterwards returns the second image. -/
theorem same_second_artifact_collision (t1 t2 : DateTime)
    (hY : t1.year = t2.year) (hMo : t1.month = t2.month) (hD : t1.day = t2.day)
    (hH : t1.hour = t2.hour) (hMi : t1.minute = t2.minute) (hS : t1.second = t2.second)
    (fs : FileSystem) (i1 i2 : Image) :
    imageFilename t1 = imageFilename t2 ∧
    fsRead (fsWrite (fsWrite fs (imageFilename t1) i1) (imageFilename t2) i2)
      (imageFilename t1) = some i2 := by
  have ht : t1 = t2 := by
    cases t1; cases t2; simp_all
  subst ht
  exact ⟨rfl, fsRead_fsWrite_same (fsWrite fs (imageFilename t1) i1) (imageFilename t1) i2⟩

/-- Witness for C8 at a concrete second and two distinct images. -/
theorem same_second_artifact_collision_witness :
    imageFilename { year := 2026, month := 10, day := 12, hour := 9, minute := 8, second := 7 } =
      imageFilename { year := 2026, month := 10, day := 12, hour := 9, minute := 8, second := 7 } ∧
    fsRead (fsWrite (fsWrite []
        (imageFilename { year := 2026, month := 10, day := 12, hour := 9, minute := 8, second := 7 })
        sampleFrame)
      (imageFilename { year := 2026, month := 10, day := 12, hour := 9, minute := 8, second := 7 })
      { pixels := [9], drawings := [] })
      (imageFilename { year := 2026, month := 10, day := 12, hour := 9, minute := 8, second := 7 }) =
      some { pixels := [9], drawings := [] } :=
  same_second_artifact_collision _ _ rfl rfl rfl rfl rfl rfl [] sampleFrame
    { pixels := [9], drawings := [] }

/-- Claim C9 (implicit): an `append` with a NULL mode passes the CHECK
constraint — the checked expression evaluates to NULL, not FALSE — and
inserts one record whose `usage_mode` is NULL, so the stored mode admits a
third, null state at the public interface. -/
theorem null_mode_accepted (t : Table) (now : Nat) (nm : String) (p e : Option String) :
    save_user_result t now (some nm) none p e =
      .ok { rows := t.rows ++
              [{ id := t.nextId, name := some nm, usage_mode := none,
                 image_path := p, detected_emotion := e, timestamp := now }],
            nextId := t.nextId + 1 } := by
  simp [save_user_result, checkUsageMode, rowInsert]

/-- Claim C10 (implicit): when the classifier returns a non-empty result
list, the label annotated and persisted is the dominant emotion of the
first entry only, and the entire iteration output — the appended record
included — is unchanged by whatever faces follow the first. -/
theorem first_face_only (st : PipelineState) (inp : IterInput)
    (r : FaceResult) (rest : List FaceResult) (h : inp.analysis = .ok (r :: rest)) :
    detectedEmotion inp.analysis = r.dominant_emotion ∧
    (recordOf st.db.nextId inp).detected_emotion = some r.dominant_emotion ∧
    ∀ rest2, processIter st { inp with analysis := .ok (r :: rest2) } = processIter st inp := by
  have he : detectedEmotion inp.analysis = r.dominant_emotion := by rw [h]; rfl
  refine ⟨he, by simp [recordOf, he], fun rest2 => ?_⟩
  rw [processIter_ok, processIter_ok]
  have he2 : detectedEmotion (AnalyzeOutcome.ok (r :: rest2)) = r.dominant_emotion := rfl
  simp [recordOf, annotatedFrame, he2, he]

/-- Witness for C10 at a concrete two-face analysis result. -/
theorem first_face_only_witness :
    sampleTwoFaceInput.analysis =
      AnalyzeOutcome.ok [{ dominant_emotion := "happy" }, { dominant_emotion := "sad" }] ∧
    detectedEmotion sampleTwoFaceInput.analysis = "happy" :=
  ⟨rfl,
    (first_face_only initialState sampleTwoFaceInput
      { dominant_emotion := "happy" } [{ dominant_emotion := "sad" }] rfl).1⟩

end FaceApp
